import Mathlib

/-!
Shallow embedding of `src/index.py` (an Amazon product scraper plus a
templated ad composer exposed as a FastAPI endpoint) and verification of
the specification claims about it.

Python string primitives (`str.split`, `str.replace`, `str.strip`) are
re-implemented here by structural recursion over character lists so that
every definition is executable and kernel-reducible.
-/

namespace PyBackend

/-- Python ASCII/latin whitespace recognised by `str.strip`. -/
def pyWhitespace (c : Char) : Bool :=
  c == ' ' || c == '\t' || c == '\n' || c == '\r' || c == '\x0b' || c == '\x0c'

/-- Python `s.strip()`: drop leading and trailing whitespace. -/
def pyStrip (s : String) : String :=
  ⟨((s.data.dropWhile pyWhitespace).reverse.dropWhile pyWhitespace).reverse⟩

/-- `sepLead sep xs` holds when `sep` is a leading segment of `xs`. -/
def sepLead (sep xs : List Char) : Bool :=
  match sep, xs with
  | [], _ => true
  | _ :: _, [] => false
  | c :: cs, x :: ys => c == x && sepLead cs ys

/-- Worker for Python `str.split` on a non-empty separator; `fuel` bounds the
recursion and is always at least the length of the remaining input. -/
def splitAux (sep : List Char) : Nat → List Char → List Char → List (List Char)
  | 0, acc, xs => [acc.reverse ++ xs]
  | n + 1, acc, xs =>
    match xs with
    | [] => [acc.reverse]
    | x :: ys =>
      if sepLead sep xs then acc.reverse :: splitAux sep n [] (xs.drop sep.length)
      else splitAux sep n (x :: acc) ys

/-- Python `s.split(sep)` for a non-empty `sep` (the source only splits on
`"//"` and `"/"`; Python raises on an empty separator, which is unreachable
here). -/
def pySplit (s sep : String) : List String :=
  if sep = "" then [s]
  else (splitAux sep.data s.data.length [] s.data).map String.mk

/-- Worker for Python `str.replace`: replace each leftmost, non-overlapping
occurrence of `pat` by `rep`. -/
def replaceAux (pat rep : List Char) : Nat → List Char → List Char
  | 0, xs => xs
  | n + 1, xs =>
    match xs with
    | [] => []
    | x :: ys =>
      if sepLead pat xs then rep ++ replaceAux pat rep n (xs.drop pat.length)
      else x :: replaceAux pat rep n ys

/-- Python `s.replace(pat, rep)` for a non-empty `pat` (the source only
replaces the patterns `"out of 5 stars"` and `"www.amazon"`). -/
def pyReplace (s pat rep : String) : String :=
  if pat = "" then s
  else ⟨replaceAux pat.data rep.data s.data.length s.data⟩

/-- `hasOccur pat xs`: does `pat` occur as a contiguous segment of `xs`? -/
def hasOccur (pat : List Char) : List Char → Bool
  | [] => sepLead pat []
  | x :: ys => sepLead pat (x :: ys) || hasOccur pat ys

/-- `pat` occurs verbatim inside `s` (as a substring). -/
def strContainsSub (s pat : String) : Prop :=
  ∃ pre post, s = pre ++ pat ++ post

/-- The parsed page, abstracting BeautifulSoup: for each of the five target
anchors of `scrape_amazon_product`, whether the node is present and the raw
text (or attribute map lookups) the source reads from it. -/
structure Soup where
  /-- raw `.text` of `#productTitle`, when that node is present -/
  productTitle : Option String
  /-- when `#acrPopover` is present, its `title` attribute (if any) -/
  acrPopover : Option (Option String)
  /-- raw `.text` of `span.a-price span.a-offscreen`, when present -/
  priceOffscreen : Option String
  /-- when `#landingImage` is present, its `src` attribute (if any) -/
  landingImage : Option (Option String)
  /-- raw `.text` of `#feature-bullets`, when that node is present -/
  featureBullets : Option String

/-- The record returned by `scrape_amazon_product` (lines 74-81). -/
structure ProductRecord where
  brandName : String
  productName : String
  productDescription : String
  productImage : Option String
  productPrice : Option String
  productRating : Option String
deriving DecidableEq, Repr

/-- A FastAPI `HTTPException`: status code and detail message. -/
structure HTTPError where
  status : Nat
  detail : String
deriving DecidableEq, Repr

/-- `str(HTTPException)` as starlette renders it: `"{status_code}: {detail}"`. -/
def httpStr (e : HTTPError) : String := toString e.status ++ ": " ++ e.detail

/-- Line 45: `title_element.text.strip() if title_element else "No title available"`. -/
def scrapeTitle (soup : Soup) : String :=
  match soup.productTitle with
  | some t => pyStrip t
  | none => "No title available"

/-- Line 48: `rating_element.attrs.get("title", "") if rating_element else None`. -/
def scrapeRatingText (soup : Soup) : Option String :=
  soup.acrPopover.map (fun a => a.getD "")

/-- Line 49: `rating_text.replace("out of 5 stars", "").strip() if rating_text else None`
(Python truthiness: the empty string is falsy). -/
def scrapeRating (soup : Soup) : Option String :=
  match scrapeRatingText soup with
  | some s => if s = "" then none else some (pyStrip (pyReplace s "out of 5 stars" ""))
  | none => none

/-- Line 52: `price_element.text.strip() if price_element else None`. -/
def scrapePrice (soup : Soup) : Option String :=
  soup.priceOffscreen.map pyStrip

/-- Line 55: `image_element.attrs.get("src") if image_element else None`. -/
def scrapeImage (soup : Soup) : Option String :=
  soup.landingImage.bind id

/-- Line 58: `description_element.text.strip() if description_element else None`. -/
def scrapeDescription (soup : Soup) : Option String :=
  soup.featureBullets.map pyStrip

/-- Line 61: `url.split("//")[1].split("/")[0].replace("www.amazon", "Amazon")`.
`none` models the `IndexError` raised when the url has no `//`; the inner
`[0]` never fails because Python `split` always returns a non-empty list. -/
def brand_name (url : String) : Option String :=
  match pySplit url "//" with
  | _ :: seg :: _ => some (pyReplace ((pySplit seg "/").headD "") "www.amazon" "Amazon")
  | _ => none

/-- Python `x or default` for an optional string (line 77): falls back on the
default when `x` is `None` or empty. -/
def pyOrDefault (o : Option String) (d : String) : String :=
  match o with
  | some s => if s = "" then d else s
  | none => d

/-- The dict passed to `save_to_csv` (lines 64-71). -/
structure CsvData where
  title : String
  rating : Option String
  price : Option String
  image : Option String
  description : Option String
  url : String

/-- The Python `csv` module writes `None` as the empty field. -/
def csvCell (o : Option String) : String := o.getD ""

/-- Line 91: the header row written on first write. -/
def csvHeaders : List String :=
  ["Title", "Rating", "Price", "Image URL", "Description", "Product URL"]

/-- `save_to_csv` (lines 87-105): the rows this call appends to the file;
the header row is written first when the file does not yet exist. -/
def save_to_csv (data : CsvData) (fileExists : Bool) : List (List String) :=
  (if fileExists then [] else [csvHeaders]) ++
  [[data.title, csvCell data.rating, csvCell data.price, csvCell data.image,
    csvCell data.description, data.url]]

/-- Observable outcome of one call to `scrape_amazon_product`: the value
returned (or the `HTTPException` raised), what it printed to stdout, and the
rows it appended to the CSV file. -/
structure ScrapeOutput where
  result : Except HTTPError ProductRecord
  stdout : List String
  csvRows : List (List String)
deriving Repr

/-- The generic detail of the 500 error raised at line 85. -/
def scrapeFailDetail : String := "Failed to scrape the product data"

/-- `scrape_amazon_product` (lines 31-85). The network fetch and HTML parse
(lines 40-41) are abstracted as the `fetch` argument: `.error c` models
`requests.get`/parsing raising with message `c`, `.ok soup` a parsed page.
Any exception in the body is caught at line 83, printed, and converted to a
generic 500 `HTTPException`; after a successful fetch the only fallible step
is the `[1]` index inside the brand-name derivation (line 61). -/
def scrape_amazon_product (url : String) (fetch : Except String Soup)
    (fileExists : Bool) : ScrapeOutput :=
  match fetch with
  | .error c =>
    ⟨.error ⟨500, scrapeFailDetail⟩, ["Error scraping product data: " ++ c], []⟩
  | .ok soup =>
    let title := scrapeTitle soup
    let rating := scrapeRating soup
    let price := scrapePrice soup
    let image := scrapeImage soup
    let description := scrapeDescription soup
    match brand_name url with
    | some brand =>
      ⟨.ok ⟨brand, title, pyOrDefault description "No description available",
            image, price, rating⟩,
       [],
       save_to_csv ⟨title, rating, price, image, description, url⟩ fileExists⟩
    | none =>
      ⟨.error ⟨500, scrapeFailDetail⟩,
       ["Error scraping product data: list index out of range"], []⟩

/-- The `descriptions["female"]` table (lines 109-115). -/
def female_descriptions (a : String) : Option String :=
  if a = "9-18" then
    some "The ad should appeal to young girls with a focus on fun, color, and trendy designs."
  else if a = "18-25" then
    some "The ad should emphasize style, comfort, and empowerment, as young women in this age group often look for products that complement their personal style and lifestyle."
  else if a = "25-40" then
    some "For women in this age group, the ad should focus on a balance of comfort, elegance, and professional appeal."
  else if a = "40-60" then
    some "The ad should emphasize comfort, sophistication, and practicality, appealing to women who value quality and timeless style."
  else if a = "60+" then
    some "The ad should highlight comfort, elegance, and the products ability to bring relaxation and ease to daily life."
  else none

/-- The `descriptions["male"]` table (lines 116-122). -/
def male_descriptions (a : String) : Option String :=
  if a = "9-18" then
    some "The ad should appeal to young boys or teens, focusing on energy, coolness, and modern trends."
  else if a = "18-25" then
    some "The ad should focus on style, confidence, and boldness, appealing to young men who are exploring their identity and fashion preferences."
  else if a = "25-40" then
    some "For men in this age group, the ad should emphasize practicality, style, and versatility."
  else if a = "40-60" then
    some "The ad should appeal to men with a focus on quality, durability, and classic style, suitable for both personal and professional settings."
  else if a = "60+" then
    some "The ad should highlight comfort, ease of use, and thoughtful gifts for loved ones."
  else none

/-- The `descriptions["others"]["*"]` universal sentence (line 124). -/
def others_description : String :=
  "The ad should emphasize inclusivity, comfort, and a sense of belonging, appealing to individuals of diverse identities who value style and self-expression across all age groups."

/-- `get_target_description` (lines 107-130): the wildcard `others` branch
first, then `descriptions.get(gender, ...).get(age_group, "")`. -/
def get_target_description (gender age_group : String) : String :=
  if gender = "others" then others_description
  else if gender = "female" then (female_descriptions age_group).getD ""
  else if gender = "male" then (male_descriptions age_group).getD ""
  else ""

/-- Python f-string interpolation of an `Optional[str]`: `None` prints as
the four characters `None`. -/
def pyFormatOpt (o : Option String) : String :=
  match o with
  | some s => s
  | none => "None"

/-- Line 137: `f" Rated ... stars!" if productRating-is-truthy else ""`
(Python truthiness: `None` and the empty string are both falsy). -/
def rating_text (pd : ProductRecord) : String :=
  match pd.productRating with
  | some s => if s = "" then "" else " Rated " ++ s ++ " stars!"
  | none => ""

/-- The `ad_templates` list (lines 140-146). -/
def ad_templates (pd : ProductRecord) : List String :=
  ["Discover " ++ pd.productName ++ "! " ++ rating_text pd ++
     " Available now at " ++ pyFormatOpt pd.productPrice ++ ".",
   "Introducing the amazing " ++ pd.productName ++ " - perfect for you! " ++
     rating_text pd,
   "Don\x27t miss out on " ++ pd.productName ++ "! Get yours at " ++
     pyFormatOpt pd.productPrice ++ ".",
   "Experience the excellence of " ++ pd.productName ++ "! " ++ rating_text pd,
   "Transform your life with " ++ pd.productName ++ "! Now only " ++
     pyFormatOpt pd.productPrice ++ "!"]

/-- `generate_simple_ad` (lines 132-155). `random.choice` over the five
templates is modelled by the explicit draw index; the truthiness test at line 152
appends the targeting sentence on a new line exactly when it is non-empty. -/
def generate_simple_ad (pd : ProductRecord) (gender age_group : String)
    (draw : Fin 5) : String :=
  let target_desc := get_target_description gender age_group
  let base_ad := (ad_templates pd).getD draw.1 ""
  if target_desc = "" then base_ad else base_ad ++ "\n" ++ target_desc

/-- The request body of `POST /createAd` (lines 26-29). -/
structure AdRequest where
  url : String
  gender : String
  ageGroup : String

/-- The success payload of `create_ad`: the product record spread together
with the composed `adCopy` (lines 172-175). -/
structure AdResponse where
  product : ProductRecord
  adCopy : String
deriving Repr

/-- Observable outcome of one call to the `create_ad` endpoint. -/
structure EndpointOutput where
  result : Except HTTPError AdResponse
  stdout : List String
  csvRows : List (List String)
deriving Repr

/-- `create_ad` (lines 157-179). An empty url is rejected with a 400 before
anything else happens (line 159-160); otherwise the scraper runs and any
exception it raises is caught at line 177, printed, and re-raised as a 500
whose detail wraps `str(error)`. (The success-path debug print of the
scraped dict at line 167 is not modelled; no claim concerns it.) -/
def create_ad (req : AdRequest) (fetch : Except String Soup)
    (fileExists : Bool) (draw : Fin 5) : EndpointOutput :=
  if req.url = "" then ⟨.error ⟨400, "No URL provided"⟩, [], []⟩
  else
    let s := scrape_amazon_product req.url fetch fileExists
    match s.result with
    | .error e =>
      let msg := "Error generating ad: " ++ httpStr e
      ⟨.error ⟨500, msg⟩,
       ("Received URL: " ++ req.url) :: s.stdout ++ [msg], s.csvRows⟩
    | .ok pd =>
      ⟨.ok ⟨pd, generate_simple_ad pd req.gender req.ageGroup draw⟩,
       ("Received URL: " ++ req.url) :: s.stdout, s.csvRows⟩

/-! ## Helper lemmas -/

/-- Appending on the right preserves substring containment. -/
theorem strContainsSub_append_right (s t pat : String) (h : strContainsSub s pat) :
    strContainsSub (s ++ t) pat := by
  rcases h with ⟨pre, post, rfl⟩
  exact ⟨pre, post ++ t, by simp [String.append_assoc]⟩

/-- `sepLead` decides whether `sep` is a leading segment. -/
theorem sepLead_eq_true_iff (sep : List Char) :
    ∀ xs, sepLead sep xs = true ↔ ∃ ys, xs = sep ++ ys := by
  induction sep with
  | nil => intro xs; simp [sepLead]
  | cons c cs ih =>
    intro xs
    cases xs with
    | nil => simp [sepLead]
    | cons x ys =>
      simp only [sepLead, Bool.and_eq_true, beq_iff_eq, ih, List.cons_append,
        List.cons.injEq]
      constructor
      · rintro ⟨rfl, zs, rfl⟩; exact ⟨zs, rfl, rfl⟩
      · rintro ⟨zs, rfl, rfl⟩; exact ⟨rfl, zs, rfl⟩

/-- When the separator occurs nowhere in the input, `splitAux` returns the
whole input as a single segment. -/
theorem splitAux_of_no_occur (sep : List Char) :
    ∀ (fuel : Nat) (xs acc : List Char), xs.length ≤ fuel →
      hasOccur sep xs = false →
      splitAux sep fuel acc xs = [acc.reverse ++ xs] := by
  intro fuel
  induction fuel with
  | zero => intro xs acc _ _; rfl
  | succ n ih =>
    intro xs acc hlen hocc
    cases xs with
    | nil => simp [splitAux]
    | cons x ys =>
      have hsplit : sepLead sep (x :: ys) = false ∧ hasOccur sep ys = false := by
        simpa [hasOccur, Bool.or_eq_false_iff] using hocc
      have hys : ys.length ≤ n := Nat.le_of_succ_le_succ (by simpa using hlen)
      simp [splitAux, hsplit.1, ih ys (x :: acc) hys hsplit.2]

/-- Python split on `"//"` leaves a string with no occurrence of `//` whole. -/
theorem pySplit_of_no_occur (url : String) (h : hasOccur "//".data url.data = false) :
    pySplit url "//" = [url] := by
  rw [pySplit, if_neg (by decide)]
  rw [splitAux_of_no_occur "//".data url.data.length url.data [] le_rfl h]
  rfl

/-! ## Claims -/

/-- C1: for an HTML document in which none of the five target anchors is
present, extraction does not raise and returns the record whose productName
and productDescription are the fixed placeholders and whose productRating,
productPrice and productImage are absent (`none`), not empty strings. The
hypothesis that the url splits on `//` is the unstated precondition claim C9
documents. -/
theorem C1_missing_anchors (url pre host : String) (rest : List String) (fe : Bool)
    (h : pySplit url "//" = pre :: host :: rest) :
    (scrape_amazon_product url (.ok ⟨none, none, none, none, none⟩) fe).result =
      .ok ⟨pyReplace ((pySplit host "/").headD "") "www.amazon" "Amazon",
           "No title available", "No description available", none, none, none⟩ := by
  simp [scrape_amazon_product, brand_name, h, scrapeTitle, scrapeRating,
    scrapeRatingText, scrapePrice, scrapeImage, scrapeDescription, pyOrDefault]

/-- C1 witness: concrete evaluation on a url with every anchor missing. -/
theorem C1_missing_anchors_witness :
    (scrape_amazon_product "https://www.amazon.com/dp/X"
        (.ok ⟨none, none, none, none, none⟩) true).result =
      .ok ⟨"Amazon.com", "No title available", "No description available",
           none, none, none⟩ := by
  rw [C1_missing_anchors "https://www.amazon.com/dp/X" "https:" "www.amazon.com/dp/X"
    [] true (by decide)]
  exact congrArg Except.ok (by decide)

/-- C2: when the rating anchor carries non-empty title text, the fixed suffix
phrase `out of 5 stars` is stripped and surrounding whitespace trimmed; in
particular the title text `4.5 out of 5 stars` extracts to `4.5`; and the
productRating field of every successful extraction is exactly this value. -/
theorem C2_rating_suffix_stripped :
    (∀ (soup : Soup) (t : String), soup.acrPopover = some (some t) → t ≠ "" →
      scrapeRating soup = some (pyStrip (pyReplace t "out of 5 stars" ""))) ∧
    (∀ soup : Soup, soup.acrPopover = some (some "4.5 out of 5 stars") →
      scrapeRating soup = some "4.5") ∧
    (∀ (url : String) (soup : Soup) (fe : Bool) (pd : ProductRecord),
      (scrape_amazon_product url (.ok soup) fe).result = .ok pd →
      pd.productRating = scrapeRating soup) := by
  have main : ∀ (soup : Soup) (t : String), soup.acrPopover = some (some t) → t ≠ "" →
      scrapeRating soup = some (pyStrip (pyReplace t "out of 5 stars" "")) := by
    intro soup t h ht
    simp [scrapeRating, scrapeRatingText, h, ht]
  refine ⟨main, ?_, ?_⟩
  · intro soup h
    rw [main soup "4.5 out of 5 stars" h (by decide)]
    decide
  · intro url soup fe pd h
    cases hb : brand_name url with
    | none => simp [scrape_amazon_product, hb] at h
    | some b =>
      simp only [scrape_amazon_product, hb] at h
      rw [Except.ok.injEq] at h
      rw [← h]

/-- C2 witness: concrete evaluation on the rating title of the claim. -/
theorem C2_rating_suffix_stripped_witness :
    scrapeRating ⟨none, some (some "4.5 out of 5 stars"), none, none, none⟩ =
      some "4.5" :=
  C2_rating_suffix_stripped.2.1 ⟨none, some (some "4.5 out of 5 stars"), none, none,
    none⟩ rfl

/-- Modelled from the spec wording of claim C3, for comparison with the code:
a rating clause that is non-empty whenever productRating is present. -/
def claimRatingClause : Option String → String
  | some s => " Rated " ++ s ++ " stars!"
  | none => ""

/-- Modelled from the spec wording of claim C3, for comparison with the code:
the five result strings the claim allows — the templates with the claimed
rating clause substituted and nothing appended. -/
def claimTemplates (pd : ProductRecord) : List String :=
  ["Discover " ++ pd.productName ++ "! " ++ claimRatingClause pd.productRating ++
     " Available now at " ++ pyFormatOpt pd.productPrice ++ ".",
   "Introducing the amazing " ++ pd.productName ++ " - perfect for you! " ++
     claimRatingClause pd.productRating,
   "Don\x27t miss out on " ++ pd.productName ++ "! Get yours at " ++
     pyFormatOpt pd.productPrice ++ ".",
   "Experience the excellence of " ++ pd.productName ++ "! " ++
     claimRatingClause pd.productRating,
   "Transform your life with " ++ pd.productName ++ "! Now only " ++
     pyFormatOpt pd.productPrice ++ "!"]

/-- C3 counterexample: (a) for a record whose productRating is present but
equal to the empty string, the code yields an empty rating clause while the
claim requires the non-empty clause; (b) for gender `others` the composed ad
carries an appended targeting line, so it is not one of the five template
strings the claim allows. -/
theorem C3_counterexample :
    (rating_text ⟨"Amazon.com", "Widget", "desc", none, none, some ""⟩ = "" ∧
      claimRatingClause (some "") ≠ "") ∧
    generate_simple_ad ⟨"Amazon.com", "Widget", "desc", none, none, none⟩
        "others" "30" 0 ∉
      claimTemplates ⟨"Amazon.com", "Widget", "desc", none, none, none⟩ := by
  exact ⟨⟨rfl, by decide⟩, by decide⟩

/-- C3 (amended): the composer never fails; it returns the drawn template
(with productName, the rating clause and/or productPrice substituted in),
followed by a newline and the targeting sentence exactly when that sentence
is non-empty; each of the five base strings contains productName verbatim;
and the rating clause is `" Rated {rating} stars!"` when productRating is
present and non-empty, and the empty string when it is absent or empty. -/
theorem C3_composer_templates (pd : ProductRecord) (g a : String) (i : Fin 5) :
    (generate_simple_ad pd g a i =
      (if get_target_description g a = "" then (ad_templates pd).getD i.1 ""
       else (ad_templates pd).getD i.1 "" ++ "\n" ++ get_target_description g a)) ∧
    strContainsSub ((ad_templates pd).getD i.1 "") pd.productName ∧
    (∀ s, pd.productRating = some s → s ≠ "" →
      rating_text pd = " Rated " ++ s ++ " stars!") ∧
    ((pd.productRating = none ∨ pd.productRating = some "") →
      rating_text pd = "") := by
  refine ⟨rfl, ?_, ?_, ?_⟩
  · fin_cases i
    · exact ⟨"Discover ", "! " ++ rating_text pd ++ " Available now at " ++
        pyFormatOpt pd.productPrice ++ ".", by simp [ad_templates, String.append_assoc]⟩
    · exact ⟨"Introducing the amazing ", " - perfect for you! " ++ rating_text pd,
        by simp [ad_templates, String.append_assoc]⟩
    · exact ⟨"Don\x27t miss out on ", "! Get yours at " ++
        pyFormatOpt pd.productPrice ++ ".", by simp [ad_templates, String.append_assoc]⟩
    · exact ⟨"Experience the excellence of ", "! " ++ rating_text pd,
        by simp [ad_templates, String.append_assoc]⟩
    · exact ⟨"Transform your life with ", "! Now only " ++
        pyFormatOpt pd.productPrice ++ "!", by simp [ad_templates, String.append_assoc]⟩
  · intro s hs hne
    simp [rating_text, hs, hne]
  · rintro (h | h) <;> simp [rating_text, h]

/-- C3 witness: the amended rating-clause rule evaluated concretely. -/
theorem C3_composer_templates_witness :
    rating_text ⟨"Amazon.com", "Widget", "desc", none, some "$5", some "4.5"⟩ =
      " Rated 4.5 stars!" :=
  ((C3_composer_templates ⟨"Amazon.com", "Widget", "desc", none, some "$5",
      some "4.5"⟩ "x" "y" 0).2.2.1 "4.5" rfl (by decide)).trans (by decide)

/-- The static audience-targeting table, as a predicate on (gender, ageGroup):
the gender `others` row is a wildcard over every ageGroup, the `female` and
`male` rows list five age bands each. -/
def InTargetTable (g a : String) : Prop :=
  g = "others" ∨ (g = "female" ∧ (female_descriptions a).isSome = true) ∨
    (g = "male" ∧ (male_descriptions a).isSome = true)

/-- C4: gender `others` maps to the single universal sentence for every
ageGroup; every (gender, ageGroup) pair outside the static table yields the
empty string without error; the composer appends a non-empty sentence on a
new line after the chosen template and appends nothing when it is empty. -/
theorem C4_targeting_table :
    (∀ a, get_target_description "others" a = others_description) ∧
    (∀ g a, ¬ InTargetTable g a → get_target_description g a = "") ∧
    (∀ (pd : ProductRecord) (g a : String) (i : Fin 5),
      get_target_description g a ≠ "" →
      generate_simple_ad pd g a i =
        (ad_templates pd).getD i.1 "" ++ "\n" ++ get_target_description g a) ∧
    (∀ (pd : ProductRecord) (g a : String) (i : Fin 5),
      get_target_description g a = "" →
      generate_simple_ad pd g a i = (ad_templates pd).getD i.1 "") := by
  refine ⟨fun a => rfl, ?_, ?_, ?_⟩
  · intro g a h
    unfold get_target_description
    split_ifs with ho hf hm
    · exact absurd (Or.inl ho) h
    · cases hfd : female_descriptions a with
      | none => simp [hfd]
      | some s => exact absurd (Or.inr (Or.inl ⟨hf, by simp [hfd]⟩)) h
    · cases hmd : male_descriptions a with
      | none => simp [hmd]
      | some s => exact absurd (Or.inr (Or.inr ⟨hm, by simp [hmd]⟩)) h
    · rfl
  · intro pd g a i h
    simp [generate_simple_ad, h]
  · intro pd g a i h
    simp [generate_simple_ad, h]

/-- C4 witness: an unrecognized pair yields the empty string, and therefore
no appended second line, evaluated concretely. -/
theorem C4_targeting_table_witness :
    get_target_description "alien" "99" = "" :=
  C4_targeting_table.2.1 "alien" "99" (by unfold InTargetTable; decide)

/-- C5: every fetch/parse failure is collapsed at the boundary into one fixed
generic 500 message; the internal cause is printed to stdout but the message
returned to the caller is a constant, independent of the cause (so the cause
is never included in it). -/
theorem C5_generic_error_boundary (url g a c : String) (fe : Bool) (draw : Fin 5)
    (h : url ≠ "") :
    ((create_ad ⟨url, g, a⟩ (.error c) fe draw).result =
      .error ⟨500, "Error generating ad: 500: Failed to scrape the product data"⟩) ∧
    (("Error scraping product data: " ++ c) ∈
      (create_ad ⟨url, g, a⟩ (.error c) fe draw).stdout) ∧
    (∀ c', (create_ad ⟨url, g, a⟩ (.error c') fe draw).result =
      (create_ad ⟨url, g, a⟩ (.error c) fe draw).result) := by
  have hres : ∀ c' : String, (create_ad ⟨url, g, a⟩ (.error c') fe draw).result =
      .error ⟨500, "Error generating ad: 500: Failed to scrape the product data"⟩ := by
    intro c'
    simp only [create_ad, if_neg h]
    exact congrArg Except.error (congrArg (HTTPError.mk 500) (by decide))
  have hstd : (create_ad ⟨url, g, a⟩ (.error c) fe draw).stdout =
      ["Received URL: " ++ url, "Error scraping product data: " ++ c,
       "Error generating ad: " ++ httpStr ⟨500, scrapeFailDetail⟩] := by
    simp only [create_ad, if_neg h]
    rfl
  refine ⟨hres c, ?_, fun c' => (hres c').trans (hres c).symm⟩
  rw [hstd]
  simp

/-- C5 witness: concrete failing fetch. -/
theorem C5_generic_error_boundary_witness :
    (create_ad ⟨"https://x", "female", "30"⟩ (.error "boom") true 0).result =
      .error ⟨500, "Error generating ad: 500: Failed to scrape the product data"⟩ :=
  (C5_generic_error_boundary "https://x" "female" "30" "boom" true 0 (by decide)).1

/-- The brand name carried by the value a scrape call returns, when it
returns one. -/
def resultBrand : Except HTTPError ProductRecord → Option String
  | .ok pd => some pd.brandName
  | .error _ => none

/-- C6: the brand name is derived purely from the host segment of the url
(the extracted record carries the same brand whatever the page contents),
with the literal substring `www.amazon` replaced by `Amazon`; in particular
the url `https://www.amazon.com/dp/X` derives the brand `Amazon.com`. -/
theorem C6_brand_from_host :
    (∀ (url pre host : String) (rest : List String) (soup : Soup) (fe : Bool),
      pySplit url "//" = pre :: host :: rest →
      resultBrand (scrape_amazon_product url (.ok soup) fe).result =
        some (pyReplace ((pySplit host "/").headD "") "www.amazon" "Amazon")) ∧
    brand_name "https://www.amazon.com/dp/X" = some "Amazon.com" := by
  constructor
  · intro url pre host rest soup fe h
    simp [scrape_amazon_product, brand_name, h, resultBrand]
  · decide

/-- C6 witness: concrete derivation, independent of the (empty) page. -/
theorem C6_brand_from_host_witness :
    resultBrand (scrape_amazon_product "https://www.amazon.com/dp/X"
      (.ok ⟨none, none, none, none, none⟩) true).result = some "Amazon.com" :=
  (C6_brand_from_host.1 "https://www.amazon.com/dp/X" "https:" "www.amazon.com/dp/X"
    [] ⟨none, none, none, none, none⟩ true (by decide)).trans (by decide)

/-- C7: a request with an empty url is rejected immediately with a 400
client error (distinct from the 500 server error), with nothing printed and
nothing appended to the log, whatever the fetch would have returned. -/
theorem C7_empty_url_rejected (g a : String) (fetch : Except String Soup)
    (fe : Bool) (draw : Fin 5) :
    create_ad ⟨"", g, a⟩ fetch fe draw =
      ⟨.error ⟨400, "No URL provided"⟩, [], []⟩ ∧ (400 : Nat) ≠ 500 :=
  ⟨rfl, by decide⟩

/-- C8: every successful extraction appends exactly one data row, whose cells
are the raw field values (absent fields as empty) in the header order Title,
Rating, Price, Image URL, Description, Product URL, after the header row when
the file does not yet exist; and the endpoint leaves this append unchanged
whatever happens downstream. -/
theorem C8_csv_row_per_success (url : String) (soup : Soup) (fe : Bool)
    (pd : ProductRecord)
    (h : (scrape_amazon_product url (.ok soup) fe).result = .ok pd) :
    ((scrape_amazon_product url (.ok soup) fe).csvRows =
      (if fe then [] else [csvHeaders]) ++
      [[scrapeTitle soup, csvCell (scrapeRating soup), csvCell (scrapePrice soup),
        csvCell (scrapeImage soup), csvCell (scrapeDescription soup), url]]) ∧
    (∀ (g a : String) (draw : Fin 5),
      (create_ad ⟨url, g, a⟩ (.ok soup) fe draw).csvRows =
        (scrape_amazon_product url (.ok soup) fe).csvRows) := by
  have hb : ∃ b, brand_name url = some b := by
    cases hb : brand_name url with
    | none => simp [scrape_amazon_product, hb] at h
    | some b => exact ⟨b, rfl⟩
  obtain ⟨b, hb⟩ := hb
  have hurl : ¬ url = "" := by
    intro he
    rw [he, show brand_name "" = none from by decide] at hb
    simp at hb
  constructor
  · simp [scrape_amazon_product, hb, save_to_csv]
  · intro g a draw
    simp [create_ad, if_neg hurl, scrape_amazon_product, hb]

/-- C8 witness: concrete successful extraction with every anchor present,
written to a fresh file (header plus exactly one raw-valued row). -/
theorem C8_csv_row_per_success_witness :
    (scrape_amazon_product "https://www.amazon.com/dp/X"
      (.ok ⟨some "T", some (some "4.5 out of 5 stars"), some "$9.99",
            some (some "http://img"), some "Great product"⟩) false).csvRows =
      [csvHeaders,
       ["T", "4.5", "$9.99", "http://img", "Great product",
        "https://www.amazon.com/dp/X"]] :=
  ((C8_csv_row_per_success "https://www.amazon.com/dp/X"
    ⟨some "T", some (some "4.5 out of 5 stars"), some "$9.99",
     some (some "http://img"), some "Great product"⟩ false
    ⟨"Amazon.com", "T", "Great product", some "http://img", some "$9.99",
     some "4.5"⟩ rfl).1).trans (by decide)

/-- C9: for a url with no occurrence of `//`, extraction fails with the
generic 500 server error even though the fetch and parse succeeded, because
the brand-name derivation indexes the second split segment unconditionally;
the `IndexError` cause goes to stdout and no CSV row is appended. -/
theorem C9_no_doubleslash_precondition (url : String) (soup : Soup) (fe : Bool)
    (h : hasOccur "//".data url.data = false) :
    scrape_amazon_product url (.ok soup) fe =
      ⟨.error ⟨500, scrapeFailDetail⟩,
       ["Error scraping product data: list index out of range"], []⟩ := by
  have hb : brand_name url = none := by
    rw [brand_name, pySplit_of_no_occur url h]
  simp [scrape_amazon_product, hb]

/-- C9 witness: a url without `//` on a page whose title anchor is present. -/
theorem C9_no_doubleslash_precondition_witness :
    scrape_amazon_product "amazon.com" (.ok ⟨some "T", none, none, none, none⟩)
        true =
      ⟨.error ⟨500, scrapeFailDetail⟩,
       ["Error scraping product data: list index out of range"], []⟩ :=
  C9_no_doubleslash_precondition "amazon.com" ⟨some "T", none, none, none, none⟩
    true (by decide)

/-- C10: when productPrice is absent, price interpolation prints the literal
text `None`, so the first, third and fifth templates — and hence the composed
ad for those draws — contain `None` verbatim rather than omitting the price
clause. -/
theorem C10_price_none_in_ad (pd : ProductRecord) (g a : String)
    (h : pd.productPrice = none) :
    pyFormatOpt pd.productPrice = "None" ∧
    ((ad_templates pd).getD 0 "" =
      "Discover " ++ pd.productName ++ "! " ++ rating_text pd ++
        " Available now at " ++ "None" ++ ".") ∧
    strContainsSub ((ad_templates pd).getD 0 "") "None" ∧
    strContainsSub ((ad_templates pd).getD 2 "") "None" ∧
    strContainsSub ((ad_templates pd).getD 4 "") "None" ∧
    strContainsSub (generate_simple_ad pd g a 0) "None" := by
  have h0 : strContainsSub ((ad_templates pd).getD 0 "") "None" :=
    ⟨"Discover " ++ pd.productName ++ "! " ++ rating_text pd ++
       " Available now at ", ".",
     by simp [ad_templates, h, pyFormatOpt, String.append_assoc]⟩
  have h2 : strContainsSub ((ad_templates pd).getD 2 "") "None" :=
    ⟨"Don\x27t miss out on " ++ pd.productName ++ "! Get yours at ", ".",
     by simp [ad_templates, h, pyFormatOpt, String.append_assoc]⟩
  have h4 : strContainsSub ((ad_templates pd).getD 4 "") "None" :=
    ⟨"Transform your life with " ++ pd.productName ++ "! Now only ", "!",
     by simp [ad_templates, h, pyFormatOpt, String.append_assoc]⟩
  refine ⟨by simp [h, pyFormatOpt], by simp [ad_templates, h, pyFormatOpt], h0, h2,
    h4, ?_⟩
  by_cases ht : get_target_description g a = ""
  · simpa [generate_simple_ad, ht] using h0
  · have hap := strContainsSub_append_right _ ("\n" ++ get_target_description g a)
      _ h0
    simpa [generate_simple_ad, ht, String.append_assoc] using hap

/-- C10 witness: a priceless record composes to an ad containing `None`. -/
theorem C10_price_none_in_ad_witness :
    strContainsSub (generate_simple_ad
      ⟨"Amazon.com", "Widget", "desc", none, none, none⟩ "others" "30" 0)
      "None" :=
  (C10_price_none_in_ad ⟨"Amazon.com", "Widget", "desc", none, none, none⟩
    "others" "30" rfl).2.2.2.2.2

end PyBackend
